import Mathlib

/-!
# Verification of the 3D floor-plan editor core

A shallow embedding of the mesh-classification function and the
placement/editing state machine of `src/frontend/src/pages/simple-editor.jsx`,
together with theorems settling the specification's claims about them.

JavaScript numbers are modelled as exact rationals (`ℚ`); the durable
key-value store (`localStorage`, used only at the fixed key `"layout"`) is
modelled as `Option String`; the external JSON codec (`JSON.stringify` /
`JSON.parse`) is an opaque boundary, so operations that use it are
parameterised by a serializer and a parser, where a parser returning `none`
models `JSON.parse` throwing.
-/

namespace FloorPlan

/-- A 3-component vector of rationals, modelling `THREE.Vector3` and the
three-element arrays used for position / rotation / scale. -/
structure Vec3 where
  x : ℚ
  y : ℚ
  z : ℚ
deriving DecidableEq, Repr

/-- Apply a function to every component, modelling `array.map(f)` on a
three-element array. -/
def Vec3.map (f : ℚ → ℚ) (v : Vec3) : Vec3 :=
  ⟨f v.x, f v.y, f v.z⟩

/-- A world-space axis-aligned bounding box, modelling `THREE.Box3`. -/
structure Box3 where
  min : Vec3
  max : Vec3
deriving DecidableEq, Repr

/-- `Box3.getSize`: component-wise `max - min`. -/
def Box3.size (b : Box3) : Vec3 :=
  ⟨b.max.x - b.min.x, b.max.y - b.min.y, b.max.z - b.min.z⟩

/-- `Box3.getCenter`: component-wise `(min + max) / 2`. -/
def Box3.center (b : Box3) : Vec3 :=
  ⟨(b.min.x + b.max.x) / 2, (b.min.y + b.max.y) / 2, (b.min.z + b.max.z) / 2⟩

/-- Whether `sub` occurs as a contiguous sublist of `l`. -/
def containsSub (sub : List Char) : List Char → Bool
  | [] => sub.isEmpty
  | c :: cs => sub.isPrefixOf (c :: cs) || containsSub sub cs

/-- JavaScript `String.prototype.includes`: substring containment. -/
def strContains (s sub : String) : Bool :=
  containsSub sub.toList s.toList

/-- JavaScript `String.prototype.toLowerCase`, modelled character-wise via
`Char.toLower` (the fragment-name keywords the classifier matches are all
ASCII, where the two functions agree). -/
def strToLower (s : String) : String :=
  ⟨s.data.map Char.toLower⟩

/-- The semantic category assigned to a mesh fragment (the `materialType`
of `assignMaterial`). -/
inductive MaterialType where
  | floor
  | wall
  | neutral
deriving DecidableEq, Repr

/-- The floor-name test of `assignMaterial` (used identically in force mode
and in the name-based rule): `name === 'floor' || name.includes('ground') ||
name.includes('base') || name.includes('plane')`.  `name` is the already
lowercased fragment name. -/
def floorNameMatch (name : String) : Bool :=
  name == "floor" || strContains name "ground" ||
    strContains name "base" || strContains name "plane"

/-- The wall-name test of `assignMaterial`:
`name.includes('wall') || name.includes('structure') || name.includes('building')`. -/
def wallNameMatch (name : String) : Bool :=
  strContains name "wall" || strContains name "structure" ||
    strContains name "building"

/-- The classification logic of `assignMaterial` (src/frontend/src/pages/
simple-editor.jsx, lines 7–94): force-wall override, then name-based,
position-based and geometry-based detection, returning the `materialType`
that decides which material is applied.  Thresholds are the source's
constants: `FLOOR_HEIGHT_THRESHOLD = 0.3`, `FLOOR_AREA_THRESHOLD = 2.0`,
`WALL_HEIGHT_THRESHOLD = 0.8`, `WALL_THICKNESS_THRESHOLD = 1.0`. -/
def assignMaterial (meshName : String) (boundingBox : Box3)
    (forceWallMode : Bool) : MaterialType :=
  let size := boundingBox.size
  let center := boundingBox.center
  let name := strToLower meshName
  if forceWallMode then
    -- 0. Force wall mode - HIGHEST PRIORITY
    if floorNameMatch name then .floor else .wall
  else if floorNameMatch name then
    -- 1. Name-based detection
    .floor
  else if wallNameMatch name then
    .wall
  else if center.y < 1/10 then
    -- 2. Position-based detection
    .floor
  else if center.y > 1/2 then
    .wall
  else
    -- 3. Geometry-based detection
    let area := size.x * size.z
    if size.y < 3/10 ∧ area > 2 then .floor
    else if size.y > 8/10 ∧ (size.x < 1 ∨ size.z < 1) then .wall
    else if size.y > 1/2 then .wall else .floor

/-- A placed furniture item (the record built by `addFurnitureAt`). -/
structure Item where
  id : ℕ
  type : String
  position : Vec3
  rotation : Vec3
  scale : Vec3
  color : ℕ
deriving DecidableEq, Repr

/-- The editor state of the `SimpleEditor` component: the `placed` list,
the selection, the armed placement tool, and the active floor asset. -/
structure EditorState where
  placed : List Item
  selectedId : Option ℕ
  placingType : Option String
  floorUrl : String
  uploadedFloor : Option String
deriving DecidableEq, Repr

/-- The initial state of a session: `useState([])`, `useState(null)`,
`useState(null)`, `useState("/floor.glb")`, `useState(null)`. -/
def initState : EditorState :=
  { placed := []
    selectedId := none
    placingType := none
    floorUrl := "/floor.glb"
    uploadedFloor := none }

/-- The durable key-value store, restricted to the single fixed key
`"layout"`: `none` models an absent key. -/
abbrev Store := Option String

/-- The outcome signalled to the user by `loadLayout`:
"Layout loaded successfully!", "Failed to load layout",
"No saved layout found". -/
inductive LoadMsg where
  | loaded
  | failed
  | nothingFound
deriving DecidableEq, Repr

/-- `addFurnitureAt(point)`: no-op when `placingType` is null; otherwise
creates an item with `id = Date.now()` (the `now` argument models the
clock reading), position `(point.x, 0.5, point.z)`, zero rotation, unit
scale and the default light-gray color `0xF5F5F5`, appends it, selects it
and clears `placingType`. -/
def addFurnitureAt (now : ℕ) (point : Vec3) (st : EditorState) : EditorState :=
  match st.placingType with
  | none => st
  | some t =>
      let newItem : Item :=
        { id := now
          type := t
          position := ⟨point.x, 1/2, point.z⟩
          rotation := ⟨0, 0, 0⟩
          scale := ⟨1, 1, 1⟩
          color := 0xF5F5F5 }
      { st with
          placed := st.placed ++ [newItem]
          selectedId := some now
          placingType := none }

/-- `setPlacingType(type)` via a furniture-library button: arms the
placement tool. -/
def armPlacement (t : String) (st : EditorState) : EditorState :=
  { st with placingType := some t }

/-- `updateSelected(changes)` specialised to a change of one field:
maps over `placed`, replacing every item whose id equals `selectedId`
by the updated item. -/
def updateSelectedWith (f : Item → Item) (st : EditorState) : EditorState :=
  { st with
      placed := st.placed.map fun item =>
        if st.selectedId == some item.id then f item else item }

/-- The `scale(direction)` operation: no-op when no selected item is found;
otherwise multiplies every scale component of the selected item by `1.1`
(`direction > 0`) or `0.9`, via `updateSelected`. -/
def scaleOp (direction : ℤ) (st : EditorState) : EditorState :=
  match st.placed.find? (fun i => st.selectedId == some i.id) with
  | none => st
  | some item =>
      let factor : ℚ := if direction > 0 then 11/10 else 9/10
      let newScale := item.scale.map (· * factor)
      updateSelectedWith (fun it => { it with scale := newScale }) st

/-- `saveLayout()`: writes `JSON.stringify(placed)` under the fixed
`"layout"` key (the serializer models `JSON.stringify`); the editor state
itself is unchanged. -/
def saveLayout (serialize : List Item → String) (st : EditorState)
    (_store : Store) : Store :=
  some (serialize st.placed)

/-- `loadLayout()`: reads the fixed `"layout"` key.  Missing key → state
unchanged, "No saved layout found".  Key present but `JSON.parse` throws
(`parse` returns `none`) → state unchanged, "Failed to load layout".
Otherwise `setPlaced(JSON.parse(data))`, "Layout loaded successfully!".
`selectedId` and the rest of the state are never written. -/
def loadLayout (parse : String → Option (List Item)) (st : EditorState)
    (store : Store) : EditorState × LoadMsg :=
  match store with
  | none => (st, .nothingFound)
  | some data =>
      match parse data with
      | none => (st, .failed)
      | some items => ({ st with placed := items }, .loaded)

/-- `clearLayout()`: empties `placed`, clears the selection, and removes
the `"layout"` key from the store. -/
def clearLayout (st : EditorState) (_store : Store) : EditorState × Store :=
  ({ st with placed := [], selectedId := none }, none)

/-- The `save(); clear(); load()` sequence, returning the final editor
state, the final store and the message signalled by the load. -/
def saveClearLoad (serialize : List Item → String)
    (parse : String → Option (List Item)) (st : EditorState)
    (store : Store) : EditorState × Store × LoadMsg :=
  let store1 := saveLayout serialize st store
  let (st2, store2) := clearLayout st store1
  let (st3, msg) := loadLayout parse st2 store2
  (st3, store2, msg)

/-- The success path of `handleFloorUpload` (lines 434–446): installs the
object URL of the converted asset, records the uploaded file name, empties
`placed` and clears the selection.  No store operation occurs. -/
def handleFloorUploadSuccess (url fileName : String) (st : EditorState)
    (store : Store) : EditorState × Store :=
  ({ st with
      floorUrl := url
      uploadedFloor := some fileName
      placed := []
      selectedId := none }, store)

/-- `resetToDefaultFloor()`: restores the default floor asset, empties
`placed` and clears the selection.  No store operation occurs. -/
def resetToDefaultFloor (st : EditorState) (store : Store) :
    EditorState × Store :=
  ({ st with
      floorUrl := "/floor.glb"
      uploadedFloor := none
      placed := []
      selectedId := none }, store)

/-- One placement interaction: arm a furniture type, then click the floor
at `point` while the clock reads `now`. -/
def placeOne (st : EditorState) (ev : ℕ × String × Vec3) : EditorState :=
  addFurnitureAt ev.1 ev.2.2 (armPlacement ev.2.1 st)

/-- A sequence of placement interactions, in order. -/
def placeMany (events : List (ℕ × String × Vec3)) (st : EditorState) :
    EditorState :=
  events.foldl placeOne st

/-- The item that the placement interaction `ev` creates. -/
def itemOfEvent (ev : ℕ × String × Vec3) : Item :=
  { id := ev.1
    type := ev.2.1
    position := ⟨ev.2.2.x, 1/2, ev.2.2.z⟩
    rotation := ⟨0, 0, 0⟩
    scale := ⟨1, 1, 1⟩
    color := 0xF5F5F5 }

/-- A concrete one-item layout used in concrete instantiations. -/
def demoItem : Item :=
  { id := 1
    type := "chair"
    position := ⟨0, 0, 0⟩
    rotation := ⟨0, 0, 0⟩
    scale := ⟨1, 1, 1⟩
    color := 0xF5F5F5 }

/-- A concrete editor state holding `demoItem`, selected. -/
def demoState : EditorState :=
  { initState with placed := [demoItem], selectedId := some 1 }

/-- A concrete serializer for instantiations (the codec boundary is opaque,
so any function of the right type stands for `JSON.stringify`). -/
def demoSerialize : List Item → String := fun _ => "saved"

/-- A concrete parser matching `demoSerialize`: it decodes exactly the
string `demoSerialize` produces, back to the saved one-item layout, so the
pair is a genuine round-tripping codec. -/
def demoParse : String → Option (List Item) :=
  fun s => if s = "saved" then some [demoItem] else none

/-! ## Claims -/

/-- C1 counterexample: with a round-tripping codec (`demoParse ∘
demoSerialize` recovers the saved list) and a state holding one item,
`save(); clear(); load()` does NOT restore the saved items: `clear()`
removes the `"layout"` key, so the load finds nothing, leaves `items`
empty and reports "No saved layout found" — the saved list is non-empty,
so the claimed round-trip fails. -/
theorem C1_roundtrip_cex :
    demoParse (demoSerialize demoState.placed) = some demoState.placed ∧
    (saveClearLoad demoSerialize demoParse demoState none).1.placed = [] ∧
    (saveClearLoad demoSerialize demoParse demoState none).2.2 = .nothingFound ∧
    demoState.placed ≠ [] := by
  refine ⟨rfl, rfl, rfl, ?_⟩
  simp [demoState, initState]

/-- C1 (amended): `save()` then `clear()` then `load()` always leaves
`items` empty and signals absence, because `clear()` deletes the stored
`"layout"` key; and `load()` with no prior `save()` (absent key, initial
state) leaves `items` as `[]` and signals absence rather than an error. -/
theorem C1_clear_deletes_key (serialize : List Item → String)
    (parse : String → Option (List Item)) (st : EditorState) (store : Store) :
    (saveClearLoad serialize parse st store).1.placed = [] ∧
    (saveClearLoad serialize parse st store).2.2 = .nothingFound ∧
    loadLayout parse initState none = (initState, .nothingFound) ∧
    initState.placed = [] :=
  ⟨rfl, rfl, rfl, rfl⟩

/-- C2 counterexample: the fragment named "floor1" has a lowercased name
containing the substring "floor", yet with `forceWallMode = false` and a
bounding box centred at height 1 it is classified Wall, not Floor: the
name rule tests `name === 'floor'` (exact equality), not containment. -/
theorem C2_contains_floor_cex :
    strContains (strToLower "floor1") "floor" = true ∧
    assignMaterial "floor1" ⟨⟨0, 1/2, 0⟩, ⟨1, 3/2, 1⟩⟩ false = .wall ∧
    MaterialType.wall ≠ MaterialType.floor := by
  refine ⟨by decide, ?_, by decide⟩
  have h1 : floorNameMatch (strToLower "floor1") = false := by decide
  have h2 : wallNameMatch (strToLower "floor1") = false := by decide
  norm_num [assignMaterial, h1, h2, Box3.size, Box3.center]

/-- C2 (amended): when `forceWallMode` is false and the fragment's
lowercased name is exactly "floor", classification returns Floor
regardless of the bounding box — the position and geometry rules are
never reached. -/
theorem C2_exact_floor_name (meshName : String) (box : Box3)
    (h : strToLower meshName = "floor") :
    assignMaterial meshName box false = .floor := by
  have hf : floorNameMatch (strToLower meshName) = true := by
    simp [floorNameMatch, h]
  simp [assignMaterial, hf]

/-- C2 witness: the fragment named "FLOOR", despite wall-like geometry
(centre at height 5.5, taller than wide), is classified Floor by name. -/
theorem C2_exact_floor_name_witness :
    assignMaterial "FLOOR" ⟨⟨0, 5, 0⟩, ⟨1, 6, 1⟩⟩ false = .floor :=
  C2_exact_floor_name "FLOOR" ⟨⟨0, 5, 0⟩, ⟨1, 6, 1⟩⟩ (by decide)

/-- C3 counterexample: a successful `load()` leaves a previously selected
id selected — `loadLayout` never writes `selectedId`, so the selection
state after `load()` is not `Empty`. -/
theorem C3_load_selection_cex :
    (loadLayout (fun _ => some []) { initState with selectedId := some 5 }
        (some "data")).1.selectedId = some 5 ∧
    (some 5 : Option ℕ) ≠ none := ⟨rfl, by simp⟩

/-- C3 (amended): after `clear()` the selection is `Empty`
(`selectedId = null`); after `load()` — in all three outcomes — the
selection is unchanged (the code never clears it on load). -/
theorem C3_clear_empties_selection (st : EditorState) (store : Store)
    (parse : String → Option (List Item)) :
    (clearLayout st store).1.selectedId = none ∧
    (loadLayout parse st store).1.selectedId = st.selectedId := by
  refine ⟨rfl, ?_⟩
  cases store with
  | none => rfl
  | some d => cases hp : parse d <;> simp [loadLayout, hp]

/-- C6: `load()` is atomic with respect to failure: with the `"layout"`
key absent it returns the state unchanged and signals "No saved layout
found"; with a stored value on which the parse fails (`JSON.parse`
throws) it returns the state unchanged and signals "Failed to load
layout" — in neither case is any part of the state modified. -/
theorem C6_load_atomic (parse : String → Option (List Item))
    (st : EditorState) (s : String) (hmal : parse s = none) :
    loadLayout parse st none = (st, .nothingFound) ∧
    loadLayout parse st (some s) = (st, .failed) := by
  refine ⟨rfl, ?_⟩
  simp [loadLayout, hmal]

/-- C6 witness: a parser that rejects everything, the initial state and
the stored string "corrupt". -/
theorem C6_load_atomic_witness :
    loadLayout (fun _ => none) initState none = (initState, .nothingFound) ∧
    loadLayout (fun _ => none) initState (some "corrupt")
      = (initState, .failed) :=
  C6_load_atomic (fun _ => none) initState "corrupt" rfl

/-- C4: with `forceWallMode = true`, any fragment whose lowercased name is
not exactly "floor" and contains none of "ground", "base", "plane" is
classified Wall, whatever its bounding box: the override bypasses the
position and geometry rules entirely. -/
theorem C4_force_wall_override (meshName : String) (box : Box3)
    (h1 : strToLower meshName ≠ "floor")
    (h2 : strContains (strToLower meshName) "ground" = false)
    (h3 : strContains (strToLower meshName) "base" = false)
    (h4 : strContains (strToLower meshName) "plane" = false) :
    assignMaterial meshName box true = .wall := by
  have hf : floorNameMatch (strToLower meshName) = false := by
    simp [floorNameMatch, h2, h3, h4]
    exact h1
  simp [assignMaterial, hf]

/-- C4 witness: the fragment "Slab" with unmistakable floor geometry
(8 × 0.1 × 6, resting at height 0) is still forced to Wall. -/
theorem C4_force_wall_override_witness :
    assignMaterial "Slab" ⟨⟨0, 0, 0⟩, ⟨8, 1/10, 6⟩⟩ true = .wall :=
  C4_force_wall_override "Slab" ⟨⟨0, 0, 0⟩, ⟨8, 1/10, 6⟩⟩
    (by decide) (by decide) (by decide) (by decide)

/-- C5: with `forceWallMode = false`, a fragment matching neither name
list, with vertical centre in the ambiguous zone `[0.1, 0.5]`, neither
thin-and-wide nor tall-and-thin, is classified by the fallback: Wall
exactly when `size.y > 0.5`, Floor otherwise. -/
theorem C5_geometry_fallback (meshName : String) (box : Box3)
    (hf : floorNameMatch (strToLower meshName) = false)
    (hw : wallNameMatch (strToLower meshName) = false)
    (hc1 : ¬ (Box3.center box).y < 1/10)
    (hc2 : ¬ (Box3.center box).y > 1/2)
    (hg1 : ¬ ((Box3.size box).y < 3/10 ∧ (Box3.size box).x * (Box3.size box).z > 2))
    (hg2 : ¬ ((Box3.size box).y > 8/10 ∧ ((Box3.size box).x < 1 ∨ (Box3.size box).z < 1))) :
    assignMaterial meshName box false =
      (if (Box3.size box).y > 1/2 then .wall else .floor) := by
  simp only [assignMaterial, hf, hw, Bool.false_eq_true, if_false]
  rw [if_neg hc1, if_neg hc2, if_neg hg1, if_neg hg2]

/-- C5 witness: the fragment "Column" with size (0.3, 0.3, 0.3) and
centre height 0.4 falls through every earlier rule, and the fallback
classifies it Floor because its height 0.3 is not above 0.5. -/
theorem C5_geometry_fallback_witness :
    assignMaterial "Column" ⟨⟨0, 1/4, 0⟩, ⟨3/10, 11/20, 3/10⟩⟩ false
      = .floor ∧
    ¬ (Box3.size ⟨⟨0, 1/4, 0⟩, ⟨3/10, 11/20, 3/10⟩⟩).y > (1/2 : ℚ) := by
  have h := C5_geometry_fallback "Column" ⟨⟨0, 1/4, 0⟩, ⟨3/10, 11/20, 3/10⟩⟩
    (by decide) (by decide)
    (by norm_num [Box3.center]) (by norm_num [Box3.center])
    (by norm_num [Box3.size]) (by norm_num [Box3.size])
  refine ⟨?_, by norm_num [Box3.size]⟩
  rw [h]
  norm_num [Box3.size]

/-- One placement interaction appends exactly the created item. -/
theorem placeOne_placed (st : EditorState) (ev : ℕ × String × Vec3) :
    (placeOne st ev).placed = st.placed ++ [itemOfEvent ev] :=
  rfl

/-- A sequence of placement interactions appends exactly the created items,
in order. -/
theorem placeMany_placed (evs : List (ℕ × String × Vec3)) (st : EditorState) :
    (placeMany evs st).placed = st.placed ++ evs.map itemOfEvent := by
  induction evs generalizing st with
  | nil => simp [placeMany]
  | cons e rest ih =>
      have h1 : placeMany (e :: rest) st = placeMany rest (placeOne st e) := rfl
      rw [h1, ih, placeOne_placed]
      simp

/-- C7 counterexample: `id = Date.now()`, so two placements within the
same millisecond (both clock readings 100) assign the same id twice — the
ids of a session's placements are not always pairwise distinct. -/
theorem C7_duplicate_ids_cex :
    (placeMany [(100, "chair", ⟨0, 0, 0⟩), (100, "table", ⟨1, 0, 1⟩)]
        initState).placed.map Item.id = [100, 100] ∧
    ¬ List.Pairwise (· ≠ ·) ([100, 100] : List ℕ) :=
  ⟨rfl, by decide⟩

/-- C7 (amended): within a session whose successive clock readings are
strictly increasing (placements more than a millisecond apart), the
assigned ids are strictly increasing in placement order, hence pairwise
distinct and never reused. -/
theorem C7_ids_strictly_increasing (evs : List (ℕ × String × Vec3))
    (hmono : List.Chain' (· < ·) (evs.map fun e => e.1)) :
    List.Pairwise (· < ·) ((placeMany evs initState).placed.map Item.id) ∧
    List.Pairwise (· ≠ ·) ((placeMany evs initState).placed.map Item.id) := by
  have hp : (placeMany evs initState).placed.map Item.id
      = evs.map fun e => e.1 := by
    rw [placeMany_placed]
    simp [initState, List.map_map, Function.comp, itemOfEvent]
  rw [hp]
  have hpw := List.chain'_iff_pairwise.mp hmono
  exact ⟨hpw, hpw.imp Nat.ne_of_lt⟩

/-- C7 witness: two placements at clock readings 1 then 2 yield strictly
increasing, pairwise distinct ids. -/
theorem C7_ids_strictly_increasing_witness :
    List.Pairwise (· < ·)
      ((placeMany [(1, "chair", ⟨0, 0, 0⟩), (2, "table", ⟨1, 0, 1⟩)]
        initState).placed.map Item.id) ∧
    List.Pairwise (· ≠ ·)
      ((placeMany [(1, "chair", ⟨0, 0, 0⟩), (2, "table", ⟨1, 0, 1⟩)]
        initState).placed.map Item.id) :=
  C7_ids_strictly_increasing _ (by simp)

/-- After `updateSelectedWith` by an id-preserving function, the selection
is unchanged and the first item found under the selected id is the image
of the one found before. -/
theorem find?_updateSelectedWith (st : EditorState) (f : Item → Item)
    (hid : ∀ it, (f it).id = it.id) (item : Item)
    (h : st.placed.find? (fun i => st.selectedId == some i.id) = some item) :
    (updateSelectedWith f st).selectedId = st.selectedId ∧
    (updateSelectedWith f st).placed.find?
        (fun i => st.selectedId == some i.id) = some (f item) := by
  refine ⟨rfl, ?_⟩
  unfold updateSelectedWith
  rw [List.find?_map]
  have hpg : ((fun i => st.selectedId == some i.id) ∘
      (fun it => if st.selectedId == some it.id then f it else it))
      = fun i => st.selectedId == some i.id := by
    funext it
    simp only [Function.comp]
    by_cases hc : (st.selectedId == some it.id) = true
    · simp [hc, hid]
    · simp [hc]
  rw [hpg, h]
  have hpi := List.find?_some h
  simp only [Option.map_some']
  rw [if_pos hpi]

/-- When the selected item is found, `scale(+1)` is `updateSelected` with
every scale component multiplied by `1.1`. -/
theorem scaleOp_up_eq (st : EditorState) (item : Item)
    (h : st.placed.find? (fun i => st.selectedId == some i.id) = some item) :
    scaleOp 1 st = updateSelectedWith
      (fun it => { it with scale := item.scale.map (· * (11/10)) }) st := by
  unfold scaleOp
  rw [h]
  norm_num

/-- When the selected item is found, `scale(-1)` is `updateSelected` with
every scale component multiplied by `0.9`. -/
theorem scaleOp_down_eq (st : EditorState) (item : Item)
    (h : st.placed.find? (fun i => st.selectedId == some i.id) = some item) :
    scaleOp (-1) st = updateSelectedWith
      (fun it => { it with scale := item.scale.map (· * (9/10)) }) st := by
  unfold scaleOp
  rw [h]
  norm_num

/-- C8: on any state whose selected item is found with scale `s`,
`rescale(+1)` then `rescale(-1)` leaves that item with scale
`0.99 * s` component-wise (the two factors compound multiplicatively),
and whenever `s` has a nonzero component — as every scale the editor
creates does, starting from `(1,1,1)` — this does not restore the
original scale. -/
theorem C8_rescale_compound (st : EditorState) (item : Item)
    (h : st.placed.find? (fun i => st.selectedId == some i.id) = some item) :
    (scaleOp (-1) (scaleOp 1 st)).placed.find?
        (fun i => st.selectedId == some i.id)
      = some { item with scale := item.scale.map (· * (99/100)) } ∧
    (¬ (item.scale.x = 0 ∧ item.scale.y = 0 ∧ item.scale.z = 0) →
      item.scale.map (· * (99/100)) ≠ item.scale) := by
  constructor
  · have e1 := scaleOp_up_eq st item h
    have s1 := find?_updateSelectedWith st
      (fun it => { it with scale := item.scale.map (· * (11/10)) })
      (fun _ => rfl) item h
    have h1 : (scaleOp 1 st).placed.find?
        (fun i => st.selectedId == some i.id)
        = some { item with scale := item.scale.map (· * (11/10)) } := by
      rw [e1]; exact s1.2
    have hsel : (scaleOp 1 st).selectedId = st.selectedId := by
      rw [e1]; exact s1.1
    have h1' : (scaleOp 1 st).placed.find?
        (fun i => (scaleOp 1 st).selectedId == some i.id)
        = some { item with scale := item.scale.map (· * (11/10)) } := by
      rw [hsel]; exact h1
    have e2 := scaleOp_down_eq (scaleOp 1 st)
      { item with scale := item.scale.map (· * (11/10)) } h1'
    have s2 := find?_updateSelectedWith (scaleOp 1 st)
      (fun it => { it with scale :=
        (item.scale.map (· * (11/10))).map (· * (9/10)) })
      (fun _ => rfl) { item with scale := item.scale.map (· * (11/10)) } h1'
    have h2 : (scaleOp (-1) (scaleOp 1 st)).placed.find?
        (fun i => st.selectedId == some i.id)
        = some { item with scale :=
            (item.scale.map (· * (11/10))).map (· * (9/10)) } := by
      rw [e2, ← hsel]
      exact s2.2
    rw [h2]
    have hsc : (item.scale.map (· * ((11:ℚ)/10))).map (· * (9/10))
        = item.scale.map (· * (99/100)) := by
      simp only [Vec3.map, Vec3.mk.injEq]
      refine ⟨by ring, by ring, by ring⟩
    rw [hsc]
  · intro hnz heq
    have hx := congrArg Vec3.x heq
    have hy := congrArg Vec3.y heq
    have hz := congrArg Vec3.z heq
    simp only [Vec3.map] at hx hy hz
    exact hnz ⟨by linarith, by linarith, by linarith⟩

/-- C8 witness: a state holding one selected sofa of scale (1,1,1):
growing then shrinking leaves scale (0.99, 0.99, 0.99), not (1,1,1). -/
theorem C8_rescale_compound_witness :
    (scaleOp (-1) (scaleOp 1 demoState)).placed.find?
        (fun i => demoState.selectedId == some i.id)
      = some { demoItem with scale := demoItem.scale.map (· * (99/100)) } ∧
    (¬ (demoItem.scale.x = 0 ∧ demoItem.scale.y = 0 ∧ demoItem.scale.z = 0) →
      demoItem.scale.map (· * (99/100)) ≠ demoItem.scale) :=
  C8_rescale_compound demoState demoItem rfl

/-- C9: placement is single-shot: when `placingType` is armed with `t`,
`addFurnitureAt` creates, appends and selects the new item AND clears
`placingType` to null, so an immediately following `addFurnitureAt` with
no intervening re-arm is a no-op. -/
theorem C9_single_shot (now : ℕ) (point : Vec3) (st : EditorState)
    (t : String) (h : st.placingType = some t) :
    (addFurnitureAt now point st).placingType = none ∧
    (addFurnitureAt now point st).placed
      = st.placed ++ [itemOfEvent (now, t, point)] ∧
    (addFurnitureAt now point st).selectedId = some now ∧
    (∀ now' point', addFurnitureAt now' point' (addFurnitureAt now point st)
      = addFurnitureAt now point st) := by
  have e : addFurnitureAt now point st =
      { st with placed := st.placed ++ [itemOfEvent (now, t, point)]
                selectedId := some now
                placingType := none } := by
    unfold addFurnitureAt
    rw [h]
    rfl
  refine ⟨by rw [e], by rw [e], by rw [e], fun now' point' => by rw [e]; rfl⟩

/-- C9 witness: arming "chair" then placing at clock reading 42; the
armed type is consumed and a further click changes nothing. -/
theorem C9_single_shot_witness :
    (addFurnitureAt 42 ⟨1, 0, 2⟩ (armPlacement "chair" initState)).placingType
      = none ∧
    (addFurnitureAt 42 ⟨1, 0, 2⟩ (armPlacement "chair" initState)).placed
      = (armPlacement "chair" initState).placed
          ++ [itemOfEvent (42, "chair", ⟨1, 0, 2⟩)] ∧
    (addFurnitureAt 42 ⟨1, 0, 2⟩ (armPlacement "chair" initState)).selectedId
      = some 42 ∧
    (∀ now' point', addFurnitureAt now' point'
        (addFurnitureAt 42 ⟨1, 0, 2⟩ (armPlacement "chair" initState))
      = addFurnitureAt 42 ⟨1, 0, 2⟩ (armPlacement "chair" initState)) :=
  C9_single_shot 42 ⟨1, 0, 2⟩ (armPlacement "chair" initState) "chair" rfl

/-- C10: swapping the floor asset — a successful upload or a reset to the
default floor — empties `placed` and clears the selection but performs no
store operation: the `"layout"` value is untouched, and a layout saved
before the swap still loads afterwards. -/
theorem C10_floor_swap_preserves_layout (url fileName : String)
    (st : EditorState) (store : Store) (parse : String → Option (List Item))
    (s : String) (items : List Item)
    (hs : store = some s) (hp : parse s = some items) :
    (handleFloorUploadSuccess url fileName st store).2 = store ∧
    (handleFloorUploadSuccess url fileName st store).1.placed = [] ∧
    (handleFloorUploadSuccess url fileName st store).1.selectedId = none ∧
    (resetToDefaultFloor st store).2 = store ∧
    (resetToDefaultFloor st store).1.placed = [] ∧
    (resetToDefaultFloor st store).1.selectedId = none ∧
    (loadLayout parse (handleFloorUploadSuccess url fileName st store).1
        (handleFloorUploadSuccess url fileName st store).2).1.placed = items ∧
    (loadLayout parse (resetToDefaultFloor st store).1
        (resetToDefaultFloor st store).2).1.placed = items := by
  subst hs
  refine ⟨rfl, rfl, rfl, rfl, rfl, rfl, ?_, ?_⟩ <;>
    simp [loadLayout, handleFloorUploadSuccess, resetToDefaultFloor, hp]

/-- C10 witness: uploading a converted floor plan over `demoState` with
`"saved"` stored: the store keeps its value and `load()` restores the
saved one-item layout. -/
theorem C10_floor_swap_preserves_layout_witness :
    (handleFloorUploadSuccess "blob:converted" "plan.jpg" demoState
        (some "saved")).2 = some "saved" ∧
    (handleFloorUploadSuccess "blob:converted" "plan.jpg" demoState
        (some "saved")).1.placed = [] ∧
    (handleFloorUploadSuccess "blob:converted" "plan.jpg" demoState
        (some "saved")).1.selectedId = none ∧
    (resetToDefaultFloor demoState (some "saved")).2 = some "saved" ∧
    (resetToDefaultFloor demoState (some "saved")).1.placed = [] ∧
    (resetToDefaultFloor demoState (some "saved")).1.selectedId = none ∧
    (loadLayout demoParse
        (handleFloorUploadSuccess "blob:converted" "plan.jpg" demoState
          (some "saved")).1
        (handleFloorUploadSuccess "blob:converted" "plan.jpg" demoState
          (some "saved")).2).1.placed = [demoItem] ∧
    (loadLayout demoParse (resetToDefaultFloor demoState (some "saved")).1
        (resetToDefaultFloor demoState (some "saved")).2).1.placed
      = [demoItem] :=
  C10_floor_swap_preserves_layout "blob:converted" "plan.jpg" demoState
    (some "saved") demoParse "saved" [demoItem] rfl rfl

end FloorPlan
